import Mathlib

/-!
Shallow embedding of the `eve-monitor-rs` terminal dashboard: the device-state
model and its reducers (`src/model/model.rs`), the message types they consume
(`src/ipc/eve_types.rs`), the per-port network-interface derivation
(`src/device/network.rs`), the dialog key handling (`src/ui/dialog.rs`) and the
Ui event routing and tab enumeration (`src/ui/ui.rs`).

Conventions: Rust `String` is Lean `String`; `Vec<T>` is `List T`;
`Option<T>` is `Option T`; `HashMap<Uuid, T>` is an association list
`List (Uuid × T)` whose key list is duplicate-free (the `HashMap` invariant);
`DateTime<Utc>` is an abstract tick count `Int`; `IpAddr` is its textual form
`String`; fallible deserializers return `Except String _`.
-/

/-- Rust `uuid::Uuid`, kept in its hyphenated textual form. -/
abbrev Uuid := String

/-- Rust `chrono::DateTime<Utc>`, abstracted to a timestamp. -/
abbrev DateTimeUtc := Int

/-- Rust `std::net::IpAddr`, abstracted to its textual form. -/
abbrev IpAddr := String

/-- `needle` is a leading segment of `haystack` (char-list level). -/
def leadsWith : List Char → List Char → Bool
  | [], _ => true
  | _ :: _, [] => false
  | a :: as, b :: bs => a == b && leadsWith as bs

/-- `needle` occurs contiguously somewhere in `haystack` (char-list level). -/
def occursIn (needle : List Char) : List Char → Bool
  | [] => leadsWith needle []
  | b :: bs => leadsWith needle (b :: bs) || occursIn needle bs

/-- Rust `str::contains(pat)` for a literal pattern. -/
def strContains (haystack needle : String) : Bool :=
  occursIn needle.toList haystack.toList

/-- `ErrorSeverity` from `src/ipc/eve_types.rs`. -/
inductive ErrorSeverity
  | Unspecified
  | Notice
  | Warning
  | Error
deriving Repr, DecidableEq

/-- `ErrorEntity` from `src/ipc/eve_types.rs` (`entity_type` kept as its
integer code). -/
structure ErrorEntity where
  entity_type : Int
  entity_id : String
deriving Repr, DecidableEq

/-- `ErrorDescription` from `src/ipc/eve_types.rs`. -/
structure ErrorDescription where
  error : String
  error_time : DateTimeUtc
  error_severity : ErrorSeverity
  error_retry_condition : String
  error_entities : Option (List ErrorEntity)
deriving Repr, DecidableEq

/-- `ErrorAndTime` from `src/ipc/eve_types.rs`. -/
structure ErrorAndTime where
  error_description : ErrorDescription
deriving Repr, DecidableEq

/-- `ErrorAndTimeWithSource` from `src/ipc/eve_types.rs`. -/
structure ErrorAndTimeWithSource where
  error_source_type : String
  error_description : ErrorDescription
deriving Repr, DecidableEq

/-- `ErrorAndTime::is_error` from `src/ipc/eve_types.rs`. -/
def ErrorAndTime.is_error (e : ErrorAndTime) : Bool :=
  !(e.error_description.error.isEmpty)

/-- `DataSecAtRestStatus` from `src/ipc/eve_types.rs`. -/
inductive DataSecAtRestStatus
  | DataSecAtRestUnknown
  | DataSecAtRestDisabled
  | DataSecAtRestEnabled
  | DataSecAtRestError
deriving Repr, DecidableEq

/-- `PCRStatus` from `src/ipc/eve_types.rs`. -/
inductive PCRStatus
  | PcrUnknown
  | PcrEnabled
  | PcrDisabled
deriving Repr, DecidableEq

/-- `SwState` from `src/ipc/eve_types.rs`. -/
inductive SwState
  | Initial
  | ResolvingTag
  | ResolvedTag
  | Downloading
  | Downloaded
  | Verifying
  | Verified
  | Loading
  | Loaded
  | CreatingVolume
  | CreatedVolume
  | Installed
  | AwaitNetworkInstance
  | StartDelayed
  | Booting
  | Running
  | Pausing
  | Paused
  | Halting
  | Halted
  | Broken
  | Unknown
  | Pending
  | Scheduling
  | Failed
  | MaxState
deriving Repr, DecidableEq

/-- `EveVaultStatus` from `src/ipc/eve_types.rs` (PCR indices kept as `Nat`). -/
structure EveVaultStatus where
  name : String
  status : DataSecAtRestStatus
  pcr_status : PCRStatus
  conversion_complete : Bool
  mismatching_pcrs : Option (List Nat)
  error_and_time : ErrorAndTime
deriving Repr, DecidableEq

/-- `AppInstanceSummary` from `src/ipc/eve_types.rs` (`AppCount = u8` kept as
`Nat`). -/
structure AppInstanceSummary where
  total_starting : Nat
  total_running : Nat
  total_stopping : Nat
  total_error : Nat
deriving Repr, DecidableEq

/-- Rust `AppInstanceSummary::default()`. -/
def AppInstanceSummary.default : AppInstanceSummary :=
  ⟨0, 0, 0, 0⟩

/-- `EveNodeStatus` from `src/ipc/eve_types.rs` (after deserialization, so
`node_uuid` already went through `zero_uuid_as_none`). -/
structure EveNodeStatus where
  server : Option String
  node_uuid : Option Uuid
  onboarded : Bool
  app_instance_summary : Option AppInstanceSummary
deriving Repr, DecidableEq

/-- `UUIDandVersion` from `src/ipc/eve_types.rs`. -/
structure UUIDandVersion where
  uuid : Uuid
  version : String
deriving Repr, DecidableEq

/-- `AppInstanceStatus` from `src/ipc/eve_types.rs`, restricted to the fields
that flow into the model (`From<AppInstanceStatus> for AppInstance` reads
`uuid_and_version`, `display_name`, `state` and
`error_and_time_with_source`); the remaining payload fields (vm/volume
configuration, timestamps, progress flags) are never consumed by the model
reducers and are elided. -/
structure AppInstanceStatus where
  uuid_and_version : UUIDandVersion
  display_name : String
  activated : Bool
  state : SwState
  missing_network : Bool
  missing_memory : Bool
  error_and_time_with_source : ErrorAndTimeWithSource
deriving Repr, DecidableEq

/-- `AppsList` from `src/ipc/eve_types.rs`. -/
structure AppsList where
  apps : List AppInstanceStatus
deriving Repr, DecidableEq

/-- `IPInfo` from `src/ipc/eve_types.rs`. -/
structure IPInfo where
  ip : String
  hostname : String
  city : String
  region : String
  country : String
  loc : String
  org : String
  postal : String
deriving Repr, DecidableEq

/-- `AddrInfo` from `src/ipc/eve_types.rs`. -/
structure AddrInfo where
  addr : IpAddr
  geo : Option IPInfo
  last_geo_timestamp : Option DateTimeUtc
deriving Repr, DecidableEq

/-- `NetworkPortStatus` from `src/ipc/eve_types.rs`, restricted to the fields
consumed by `From<NetworkPortStatus> for NetworkInterface`
(`src/device/network.rs`): `if_name`, `is_mgmt`, `addr_info_list`,
`default_routers`, plus the cheap scalar context fields; proxy/wireless/layer-2
configuration never flows into the model and is elided. `addr_info_list` is
the address list as that conversion consumes it (one `AddrInfo` per address). -/
structure NetworkPortStatus where
  if_name : String
  phy_label : String
  logical_label : String
  is_mgmt : Bool
  is_l3_port : Bool
  cost : Nat
  domain_name : String
  dns_servers : Option (List IpAddr)
  addr_info_list : List AddrInfo
  up : Bool
  default_routers : Option (List IpAddr)
  mtu : Nat
deriving Repr, DecidableEq

/-- `DeviceNetworkStatus` from `src/ipc/eve_types.rs` (`state` kept as the
`DPCState` integer code, `version` as the `DevicePortConfigVersion` integer). -/
structure DeviceNetworkStatus where
  dpc_key : String
  version : Nat
  testing : Bool
  state : Nat
  current_index : Int
  ports : Option (List NetworkPortStatus)
deriving Repr, DecidableEq

/-- `DownloaderStatus` from `src/ipc/eve_types.rs` (wholesale-replaced,
never inspected by the model; sizes kept as `Int`/`Nat`). -/
structure DownloaderStatus where
  image_sha256 : String
  datastore_id_list : List Uuid
  target : String
  name : String
  ref_count : Nat
  last_use : DateTimeUtc
  expired : Bool
  name_is_url : Bool
  state : SwState
  reserved_space : Nat
  size : Nat
  total_size : Int
  current_size : Int
  progress : Nat
  mod_time : DateTimeUtc
  content_type : String
  error_and_time : ErrorAndTime
  retry_count : Int
  orig_error : String
deriving Repr, DecidableEq

/-- `EveOnboardingStatus` from `src/ipc/eve_types.rs`. -/
structure EveOnboardingStatus where
  device_uuid : Uuid
  hardware_model : String
deriving Repr, DecidableEq

/-- `OnboardingStatus` from `src/model/model.rs`. -/
inductive OnboardingStatus
  | Unknown
  | Onboarding
  | Onboarded (id : Uuid)
  | Error (reason : String)
deriving Repr, DecidableEq

/-- `NodeStatus` from `src/model/model.rs`. -/
structure NodeStatus where
  server : Option String
  app_summary : AppInstanceSummary
  onboarding_status : OnboardingStatus
deriving Repr, DecidableEq

/-- `AppInstanceState` from `src/model/model.rs`. -/
inductive AppInstanceState
  | Normal (stateCode : SwState)
  | Error (stateCode : SwState) (reason : String)
deriving Repr, DecidableEq

/-- `AppInstance` from `src/model/model.rs`. -/
structure AppInstance where
  name : String
  uuid : Uuid
  version : String
  state : AppInstanceState
deriving Repr, DecidableEq

/-- `EveError` from `src/model/model.rs`. -/
structure EveError where
  error : String
  time : DateTimeUtc
deriving Repr, DecidableEq

/-- `impl From<ErrorAndTime> for EveError` (`src/model/model.rs`). -/
def EveError.ofErrorAndTime (error_and_time : ErrorAndTime) : EveError :=
  { error := error_and_time.error_description.error
    time := error_and_time.error_description.error_time }

/-- `VaultStatus` from `src/model/model.rs` (the source spells the second
constructor `EncriptionDisabled`). -/
inductive VaultStatus
  | Unknown
  | EncriptionDisabled (reason : EveError) (tpmUsed : Bool)
  | Unlocked (tpmUsed : Bool)
  | Locked (reason : EveError) (mismatchingPcrList : Option (List Nat))
deriving Repr, DecidableEq

/-- `impl From<EveVaultStatus> for VaultStatus` (`src/model/model.rs`). -/
def VaultStatus.ofEve (vault_status : EveVaultStatus) : VaultStatus :=
  let tpm_used := vault_status.pcr_status == PCRStatus.PcrEnabled
  match vault_status.status with
  | DataSecAtRestStatus.DataSecAtRestUnknown => VaultStatus.Unknown
  | DataSecAtRestStatus.DataSecAtRestDisabled =>
      let reason := EveError.ofErrorAndTime vault_status.error_and_time
      VaultStatus.EncriptionDisabled reason tpm_used
  | DataSecAtRestStatus.DataSecAtRestEnabled => VaultStatus.Unlocked tpm_used
  | DataSecAtRestStatus.DataSecAtRestError =>
      let err := EveError.ofErrorAndTime vault_status.error_and_time
      let pcrs := if strContains err.error "Vault key unavailable" then
          vault_status.mismatching_pcrs
        else
          none
      VaultStatus.Locked err pcrs

/-- `impl From<AppInstanceStatus> for AppInstance` (`src/model/model.rs`). -/
def AppInstance.ofStatus (app : AppInstanceStatus) : AppInstance :=
  let state := if !(app.error_and_time_with_source.error_description.error.isEmpty) then
      AppInstanceState.Error app.state
        app.error_and_time_with_source.error_description.error
    else
      AppInstanceState.Normal app.state
  { name := app.display_name
    uuid := app.uuid_and_version.uuid
    version := app.uuid_and_version.version
    state := state }

/-- `impl From<EveNodeStatus> for NodeStatus` (`src/model/model.rs`). -/
def NodeStatus.ofEve (node_status : EveNodeStatus) : NodeStatus :=
  let onboarding_status :=
    match node_status.onboarded, node_status.node_uuid with
    | true, some uuid => OnboardingStatus.Onboarded uuid
    | true, none => OnboardingStatus.Error "Node UUID is missing"
    | false, _ => OnboardingStatus.Onboarding
  { server := node_status.server
    app_summary := node_status.app_instance_summary.getD AppInstanceSummary.default
    onboarding_status := onboarding_status }

/-- `NetworkInterface` from `src/device/network.rs`. -/
structure NetworkInterface where
  name : String
  is_mngmt : Bool
  addresses : List IpAddr
  default_gateway : Option (List IpAddr)
deriving Repr, DecidableEq

/-- `impl From<NetworkPortStatus> for NetworkInterface`
(`src/device/network.rs`): addresses are the `addr` field of each entry of
the port's `addr_info_list`. -/
def NetworkInterface.ofPort (port : NetworkPortStatus) : NetworkInterface :=
  let addresses := port.addr_info_list.map (fun addr => addr.addr)
  { name := port.if_name
    addresses := addresses
    is_mngmt := port.is_mgmt
    default_gateway := port.default_routers }

/-- `MonitorModel` from `src/model/model.rs` (`dmesg` entries abstracted to
their text; the app `HashMap` as an association list with duplicate-free
keys). -/
structure MonitorModel where
  dmesg : List String
  network : List NetworkInterface
  downloader : Option DownloaderStatus
  node_status : NodeStatus
  apps : List (Uuid × AppInstance)
  vault_status : VaultStatus
deriving Repr, DecidableEq

/-- `impl Default for MonitorModel` (`src/model/model.rs`). -/
def MonitorModel.default : MonitorModel :=
  { dmesg := []
    network := []
    downloader := none
    node_status := { server := none
                     app_summary := AppInstanceSummary.default
                     onboarding_status := OnboardingStatus.Unknown }
    apps := []
    vault_status := VaultStatus.Unknown }

/-- `HashMap::entry(k).and_modify(|e| *e = v).or_insert(v)` on the
association-list representation: replace the value at the first occurrence of
the key, or append a fresh entry when the key is absent. -/
def upsertApp (k : Uuid) (v : AppInstance) :
    List (Uuid × AppInstance) → List (Uuid × AppInstance)
  | [] => [(k, v)]
  | (k', v') :: rest =>
      if k' = k then (k', v) :: rest else (k', v') :: upsertApp k v rest

/-- `MonitorModel::update_app_status` (`src/model/model.rs`). -/
def MonitorModel.update_app_status (m : MonitorModel) (state : AppInstanceStatus) :
    MonitorModel :=
  let app_guid := state.uuid_and_version.uuid
  { m with apps := upsertApp app_guid (AppInstance.ofStatus state) m.apps }

/-- `MonitorModel::update_app_list` (`src/model/model.rs`). -/
def MonitorModel.update_app_list (m : MonitorModel) (apps_list : AppsList) :
    MonitorModel :=
  { m with apps := (apps_list.apps.map (fun app =>
      (app.uuid_and_version.uuid, AppInstance.ofStatus app))) }

/-- `MonitorModel::update_downloader_status` (`src/model/model.rs`). -/
def MonitorModel.update_downloader_status (m : MonitorModel)
    (status : DownloaderStatus) : MonitorModel :=
  { m with downloader := some status }

/-- `MonitorModel::update_node_status` (`src/model/model.rs`). -/
def MonitorModel.update_node_status (m : MonitorModel) (status : EveNodeStatus) :
    MonitorModel :=
  { m with node_status := NodeStatus.ofEve status }

/-- `MonitorModel::update_app_summary` (`src/model/model.rs`). -/
def MonitorModel.update_app_summary (m : MonitorModel)
    (app_summary : AppInstanceSummary) : MonitorModel :=
  { m with node_status := { m.node_status with app_summary := app_summary } }

/-- `MonitorModel::get_network_settings` (`src/model/model.rs`): `None` when
the message carries no port list, otherwise one derived interface per port. -/
def MonitorModel.get_network_settings (_m : MonitorModel)
    (network_status : DeviceNetworkStatus) : Option (List NetworkInterface) :=
  match network_status.ports with
  | none => none
  | some ports => some (ports.map NetworkInterface.ofPort)

/-- `MonitorModel::update_network_status` (`src/model/model.rs`). -/
def MonitorModel.update_network_status (m : MonitorModel)
    (net_status : DeviceNetworkStatus) : MonitorModel :=
  { m with network := (m.get_network_settings net_status).getD [] }

/-- `MonitorModel::update_vault_status` (`src/model/model.rs`). -/
def MonitorModel.update_vault_status (m : MonitorModel)
    (vault_status : EveVaultStatus) : MonitorModel :=
  { m with vault_status := VaultStatus.ofEve vault_status }

/-- `MonitorModel::update_onboarding_status` (`src/model/model.rs`). -/
def MonitorModel.update_onboarding_status (m : MonitorModel)
    (status : EveOnboardingStatus) : MonitorModel :=
  { m with node_status := { m.node_status with
      onboarding_status := OnboardingStatus.Onboarded status.device_uuid } }

/-- Subset of `crossterm::event::KeyCode` exercised by the Ui and Dialog key
handling (`Esc`, arrow keys, character keys). -/
inductive KeyCode
  | Esc
  | Left
  | Right
  | Char (c : Char)
deriving Repr, DecidableEq

/-- `crossterm::event::KeyModifiers` as the three modifier bits; the source
compares the whole bitset for equality with `KeyModifiers::CONTROL`. -/
structure KeyModifiers where
  ctrl : Bool
  shift : Bool
  alt : Bool
deriving Repr, DecidableEq

/-- `KeyModifiers::CONTROL`: exactly the control bit. -/
def KeyModifiers.CONTROL : KeyModifiers :=
  { ctrl := true, shift := false, alt := false }

/-- `crossterm::event::KeyEvent` (code plus modifier bitset). -/
structure KeyEvent where
  code : KeyCode
  modifiers : KeyModifiers
deriving Repr, DecidableEq

/-- `UiActions` from `src/ui/action.rs` (not under `src/`), reconstructed
from its uses in `src/ui/dialog.rs` and `src/ui/ui.rs`: `DismissDialog`,
`ButtonClicked(String)`, `Redraw` and `Quit` are the variants those match
arms name; all further variants fall into the same `_` arms as `Redraw` and
`Quit` do. -/
inductive UiActions
  | DismissDialog
  | ButtonClicked (name : String)
  | Redraw
  | Quit
deriving Repr, DecidableEq

/-- `Action` from `src/ui/action.rs` (declared here as `Action'`; plain `Action` is taken by Mathlib): a source window name plus a
`UiActions` payload, built with `Action::new(source, action)`. -/
structure Action' where
  source : String
  action : UiActions
deriving Repr, DecidableEq

/-- `Action::new`. -/
def Action'.new (source : String) (action : UiActions) : Action' :=
  { source := source, action := action }

/-- `Dialog<D>` from `src/ui/dialog.rs`, restricted to what
`handle_key_event` consumes: the wrapped content window `self.w` is its name
(`w.name`) plus its key handler (`w.handle_key_event`), modelled as a
function from the key event to the optional returned action; `size` and
`buttons` only drive layout and rendering. -/
structure Dialog where
  name : String
  size : Nat × Nat
  buttons : List String
  innerHandle : KeyEvent → Option Action'

/-- `impl IEventHandler for Dialog`: `handle_key_event`
(`src/ui/dialog.rs` lines 167-197). Escape returns `DismissDialog` before the
inner window is consulted; otherwise the key goes to the inner window, an
inner `ButtonClicked("Cancel")` becomes `DismissDialog`, any other inner
`ButtonClicked(_)` returns `None`, and any other inner action is returned
unchanged. -/
def Dialog.handle_key_event (d : Dialog) (key : KeyEvent) : Option Action' :=
  if key.code = KeyCode.Esc then
    some (Action'.new d.name UiActions.DismissDialog)
  else
    match d.innerHandle key with
    | some action =>
        match action.action with
        | UiActions.ButtonClicked name =>
            if name = "Cancel" then
              some (Action'.new d.name UiActions.DismissDialog)
            else
              none
        | _ => some action
    | none => none

/-- `Event` from `src/events.rs` as consumed by `Ui::handle_event`: key
events and the periodic tick. -/
inductive Event
  | Key (k : KeyEvent)
  | Tick
deriving Repr, DecidableEq

/-- One boxed `dyn IWindow` layer as `Ui::handle_event` observes it: a tick
counter recording deliveries, the optional action the layer returns for a
tick, and its key handler. -/
structure Layer where
  ticks : Nat
  tickAction : Option Action'
  onKey : KeyEvent → Option Action'

/-- Deliver one tick to a layer: the delivery is recorded in `ticks` and the
layer's tick action is returned. -/
def Layer.handleTick (l : Layer) : Layer × Option Action' :=
  ({ l with ticks := l.ticks + 1 }, l.tickAction)

/-- `UiTabs` from `src/ui/ui.rs`: the fixed tab enumeration in display
order. -/
inductive UiTabs
  | Summary
  | Home
  | Network
  | Applications
  | Dmesg
deriving Repr, DecidableEq

/-- `UiTabs as usize`: the discriminant. -/
def UiTabs.toIdx : UiTabs → Nat
  | UiTabs.Summary => 0
  | UiTabs.Home => 1
  | UiTabs.Network => 2
  | UiTabs.Applications => 3
  | UiTabs.Dmesg => 4

/-- `UiTabs::from_repr` (strum `FromRepr`). -/
def UiTabs.from_repr : Nat → Option UiTabs
  | 0 => some UiTabs.Summary
  | 1 => some UiTabs.Home
  | 2 => some UiTabs.Network
  | 3 => some UiTabs.Applications
  | 4 => some UiTabs.Dmesg
  | _ => none

/-- `UiTabs::previous` (`src/ui/ui.rs`): saturating index decrement, falling
back to the current tab. -/
def UiTabs.previous (t : UiTabs) : UiTabs :=
  let current_index := t.toIdx
  let previous_index := current_index - 1
  (UiTabs.from_repr previous_index).getD t

/-- `UiTabs::next` (`src/ui/ui.rs`): saturating index increment, falling back
to the current tab. -/
def UiTabs.next (t : UiTabs) : UiTabs :=
  let current_index := t.toIdx
  let next_index := current_index + 1
  (UiTabs.from_repr next_index).getD t

/-- `Ui` from `src/ui/ui.rs`, restricted to what `handle_event` touches:
the per-tab layer stacks (`views`, indexed by `selected_tab as usize`, each
stack bottom-to-top), the selected tab, the status bar (as a `Layer`), the
sequence of actions sent on `action_tx` (the ActionBus, oldest first) and a
flag recording the manual-panic debug path. -/
structure Ui where
  views : List (List Layer)
  selected_tab : UiTabs
  status_bar : Layer
  sent : List Action'
  crashed : Bool

/-- The active tab's layer stack `self.views[self.selected_tab as usize]`. -/
def Ui.activeStack (u : Ui) : List Layer :=
  u.views.getD u.selected_tab.toIdx []

/-- `Ui::pop_layer`: pop the top (last) window of the active tab's stack. -/
def Ui.pop_layer (u : Ui) : Ui :=
  { u with views := u.views.set u.selected_tab.toIdx u.activeStack.dropLast }

/-- The two tab-switch checks at the end of the key branch of
`Ui::handle_event`: Ctrl+Left moves to `previous()`, then Ctrl+Right moves to
`next()`, each applied to the current selection. -/
def Ui.tabSwitch (u : Ui) (key : KeyEvent) : Ui :=
  let u1 := if key.modifiers = KeyModifiers.CONTROL ∧ key.code = KeyCode.Left then
      { u with selected_tab := u.selected_tab.previous }
    else
      u
  if key.modifiers = KeyModifiers.CONTROL ∧ key.code = KeyCode.Right then
    { u1 with selected_tab := u1.selected_tab.next }
  else
    u1

/-- The guard of the global Ctrl+char shortcut branches of
`Ui::handle_event`. -/
def isCtrlChar (key : KeyEvent) (c : Char) : Bool :=
  key.code == KeyCode.Char c && key.modifiers == KeyModifiers.CONTROL

/-- `Ui::handle_event` (`src/ui/ui.rs` lines 158-303). `dbg` is
`cfg!(debug_assertions)`. In order: the Ctrl+e/r/p/a global branches; for any
other key event, forward to the active stack's top layer (the early `?`
returns `None` when the stack is empty), interpret the returned action
(`DismissDialog` and `ButtonClicked("Ok"|"Cancel")` pop the active layer, any
other `ButtonClicked` is dropped, any other action is returned to the caller
immediately), then — unless that early return fired — run the tab-switch
checks; a tick is delivered to every layer of the active stack, each produced
action is sent on `action_tx`, and the status bar is ticked with its result
discarded. -/
def Ui.handle_event (dbg : Bool) (u : Ui) (event : Event) : Ui × Option Action' :=
  match event with
  | Event.Key key =>
      if isCtrlChar key 'e' then
        ({ u with sent := u.sent ++ [Action'.new "user" UiActions.Quit] }, none)
      else if isCtrlChar key 'r' then
        ({ u with sent := u.sent ++ [Action'.new "app" UiActions.Redraw] }, none)
      else if isCtrlChar key 'p' then
        (u.pop_layer, none)
      else if isCtrlChar key 'a' && dbg then
        ({ u with crashed := true }, none)
      else
        match u.activeStack.getLast? with
        | none => (u, none)
        | some top =>
            match top.onKey key with
            | some action =>
                match action.action with
                | UiActions.DismissDialog => (u.pop_layer.tabSwitch key, none)
                | UiActions.ButtonClicked name =>
                    if name = "Ok" then (u.pop_layer.tabSwitch key, none)
                    else if name = "Cancel" then (u.pop_layer.tabSwitch key, none)
                    else (u.tabSwitch key, none)
                | _ => (u, some action)
            | none => (u.tabSwitch key, none)
  | Event.Tick =>
      let stack := u.activeStack
      let ticked := stack.map (fun l => (Layer.handleTick l).1)
      let acts := stack.filterMap (fun l => (Layer.handleTick l).2)
      ({ u with
          views := u.views.set u.selected_tab.toIdx ticked
          sent := u.sent ++ acts
          status_bar := (Layer.handleTick u.status_bar).1 }, none)

/-- Value of one character in the standard base64 alphabet
(`A-Z a-z 0-9 + /`), `none` for anything else (including `=`). -/
def b64Val (c : Char) : Option Nat :=
  if 'A' ≤ c ∧ c ≤ 'Z' then some (c.toNat - 'A'.toNat)
  else if 'a' ≤ c ∧ c ≤ 'z' then some (c.toNat - 'a'.toNat + 26)
  else if '0' ≤ c ∧ c ≤ '9' then some (c.toNat - '0'.toNat + 52)
  else if c = '+' then some 62
  else if c = '/' then some 63
  else none

/-- Decode a base64 character stream quantum by quantum, per the behaviour
of `base64::engine::general_purpose::STANDARD`: the length must be a
multiple of four, `=` padding is required and canonical (only in the final
quantum, one or two of them) and non-zero trailing bits are rejected
(`decode_allow_trailing_bits = false`); yields the decoded bytes. -/
def b64DecodeChunks : List Char → Option (List Nat)
  | [] => some []
  | c1 :: c2 :: c3 :: c4 :: rest =>
      match b64Val c1, b64Val c2 with
      | some v1, some v2 =>
          if c3 = '=' then
            if c4 = '=' ∧ rest = [] ∧ v2 % 16 = 0 then
              some [v1 * 4 + v2 / 16]
            else
              none
          else
            match b64Val c3 with
            | some v3 =>
                if c4 = '=' then
                  if rest = [] ∧ v3 % 4 = 0 then
                    some [v1 * 4 + v2 / 16, (v2 % 16) * 16 + v3 / 4]
                  else
                    none
                else
                  match b64Val c4 with
                  | some v4 =>
                      match b64DecodeChunks rest with
                      | some bs =>
                          some ([v1 * 4 + v2 / 16, (v2 % 16) * 16 + v3 / 4,
                                 (v3 % 4) * 64 + v4] ++ bs)
                      | none => none
                  | none => none
            | none => none
      | _, _ => none
  | _ => none

/-- `base64::engine::general_purpose::STANDARD.decode` on a string. -/
def base64Decode (s : String) : Option (List Nat) :=
  b64DecodeChunks s.toList

/-- `macaddr::MacAddr`: a 6-byte (EUI-48) or 8-byte (EUI-64) address. -/
inductive MacAddr
  | V6 (bytes : List Nat)
  | V8 (bytes : List Nat)
deriving Repr, DecidableEq

/-- `deserialize_mac` from `src/ipc/eve_types.rs` (lines 151-183): an absent
input is `Ok(None)`; otherwise the string is base64-decoded (any decode
failure is an error) and the byte count dispatches: 6 bytes give a
`MacAddr6`, 8 bytes a `MacAddr8`, anything else is
`"invalid MAC address length"`. -/
def deserialize_mac (input : Option String) : Except String (Option MacAddr) :=
  match input with
  | none => Except.ok none
  | some s =>
      match base64Decode s with
      | none => Except.error "base64 decode error"
      | some bytes =>
          if bytes.length = 6 then Except.ok (some (MacAddr.V6 bytes))
          else if bytes.length = 8 then Except.ok (some (MacAddr.V8 bytes))
          else Except.error "invalid MAC address length"

/-- The all-zero UUID in its textual form. -/
def zeroUuidStr : String :=
  "00000000-0000-0000-0000-000000000000"

/-- ASCII lower-casing of one character. -/
def lowerAscii (c : Char) : Char :=
  if 'A' ≤ c ∧ c ≤ 'Z' then Char.ofNat (c.toNat + 32) else c

/-- ASCII lower-casing of a string (computable by the kernel, unlike
`String.toLower`). -/
def strToLower (s : String) : String :=
  String.mk (s.toList.map lowerAscii)

/-- A hexadecimal digit (either case). -/
def isHexDigitChar (c : Char) : Bool :=
  c.isDigit || ('a' ≤ c && c ≤ 'f') || ('A' ≤ c && c ≤ 'F')

/-- `uuid::Uuid::parse_str` restricted to the hyphenated form the node-status
topic carries: 36 characters, hyphens at positions 8, 13, 18 and 23, hex
digits elsewhere; the parsed value is kept as the lower-cased text. -/
def uuidParseStr (s : String) : Option Uuid :=
  let cs := s.toList
  if cs.length = 36
      ∧ (List.range 36).all (fun i =>
          if i = 8 ∨ i = 13 ∨ i = 18 ∨ i = 23 then
            cs.getD i ' ' = '-'
          else
            isHexDigitChar (cs.getD i ' ')) then
    some (strToLower s)
  else
    none

/-- `zero_uuid_as_none` from `src/ipc/eve_types.rs` (lines 1492-1502): the
all-zero UUID string deserializes to `None`, any other string must parse as a
UUID and deserializes to `Some`, a parse failure is a decode error. -/
def zero_uuid_as_none (s : String) : Except String (Option Uuid) :=
  if s = zeroUuidStr then
    Except.ok none
  else
    match uuidParseStr s with
    | some uuid => Except.ok (some uuid)
    | none => Except.error "invalid UUID"

/-- The node-status message as it arrives on the wire, before field
deserialization: `node_uuid` is still the raw UUID string that
`zero_uuid_as_none` will process. -/
structure RawEveNodeStatus where
  server : Option String
  node_uuid : String
  onboarded : Bool
  app_instance_summary : Option AppInstanceSummary
deriving Repr, DecidableEq

/-- Deserialization of `EveNodeStatus` (`src/ipc/eve_types.rs` lines
1483-1490): every field is taken as-is except `node_uuid`, which goes through
`zero_uuid_as_none`. -/
def deserializeEveNodeStatus (raw : RawEveNodeStatus) : Except String EveNodeStatus :=
  match zero_uuid_as_none raw.node_uuid with
  | Except.error e => Except.error e
  | Except.ok node_uuid =>
      Except.ok { server := raw.server
                  node_uuid := node_uuid
                  onboarded := raw.onboarded
                  app_instance_summary := raw.app_instance_summary }

deriving instance DecidableEq for Except

/-- Upserting the same key/value twice is the same as once. -/
theorem upsertApp_idem (k : Uuid) (v : AppInstance) (l : List (Uuid × AppInstance)) :
    upsertApp k v (upsertApp k v l) = upsertApp k v l := by
  induction l with
  | nil => simp [upsertApp]
  | cons hd tl ih =>
      obtain ⟨k', v'⟩ := hd
      by_cases h : k' = k
      · subst h
        simp [upsertApp]
      · simp [upsertApp, h, ih]

/-- A key absent from the key column is counted zero times. -/
theorem countP_key_eq_zero (k : Uuid) (l : List (Uuid × AppInstance))
    (h : k ∉ l.map Prod.fst) : l.countP (fun e => decide (e.1 = k)) = 0 := by
  induction l with
  | nil => simp
  | cons hd tl ih =>
      simp only [List.map_cons, List.mem_cons] at h
      push_neg at h
      rw [List.countP_cons]
      have hne : ¬ hd.1 = k := fun he => h.1 (he.symm)
      simp [hne, ih h.2]

/-- After an upsert into a duplicate-free map the key occurs exactly once. -/
theorem upsertApp_countP_eq_one (k : Uuid) (v : AppInstance)
    (l : List (Uuid × AppInstance)) (h : (l.map Prod.fst).Nodup) :
    (upsertApp k v l).countP (fun e => decide (e.1 = k)) = 1 := by
  induction l with
  | nil => simp [upsertApp]
  | cons hd tl ih =>
      obtain ⟨k', v'⟩ := hd
      simp only [List.map_cons, List.nodup_cons] at h
      by_cases hk : k' = k
      · subst hk
        rw [show upsertApp k' v ((k', v') :: tl) = (k', v) :: tl by simp [upsertApp]]
        rw [List.countP_cons]
        simp [countP_key_eq_zero k' tl h.1]
      · rw [show upsertApp k v ((k', v') :: tl) = (k', v') :: upsertApp k v tl by
          simp [upsertApp, hk]]
        rw [List.countP_cons]
        simp [hk, ih h.2]

/-- Looking up the upserted key yields the upserted value. -/
theorem upsertApp_lookup (k : Uuid) (v : AppInstance)
    (l : List (Uuid × AppInstance)) :
    (upsertApp k v l).lookup k = some v := by
  induction l with
  | nil => simp [upsertApp, List.lookup]
  | cons hd tl ih =>
      obtain ⟨k', v'⟩ := hd
      by_cases h : k' = k
      · subst h
        simp [upsertApp, List.lookup]
      · rw [show upsertApp k v ((k', v') :: tl) = (k', v') :: upsertApp k v tl by
          simp [upsertApp, h]]
        rw [List.lookup]
        have : (k == k') = false := by
          simp [beq_iff_eq]
          exact fun he => h he.symm
        simp [this, ih]

/-- C4: `update_vault_status` derives the model's `VaultStatus` exactly as the
claim states: `Unknown → Unknown`; `Disabled → EncriptionDisabled(error,
tpmUsed)`; `Enabled → Unlocked(tpmUsed)`; `Error → Locked(error, pcrs)` with
`pcrs` the message's mismatching-PCR list exactly when the error text contains
the substring "Vault key unavailable" (otherwise `none`); and `tpmUsed` is
true exactly when the reported PCR status is `PcrEnabled`. -/
theorem c4_update_vault_status (m : MonitorModel) (v : EveVaultStatus) :
    (v.status = DataSecAtRestStatus.DataSecAtRestUnknown →
      (m.update_vault_status v).vault_status = VaultStatus.Unknown) ∧
    (v.status = DataSecAtRestStatus.DataSecAtRestDisabled →
      (m.update_vault_status v).vault_status =
        VaultStatus.EncriptionDisabled (EveError.ofErrorAndTime v.error_and_time)
          (v.pcr_status == PCRStatus.PcrEnabled)) ∧
    (v.status = DataSecAtRestStatus.DataSecAtRestEnabled →
      (m.update_vault_status v).vault_status =
        VaultStatus.Unlocked (v.pcr_status == PCRStatus.PcrEnabled)) ∧
    (v.status = DataSecAtRestStatus.DataSecAtRestError →
      (m.update_vault_status v).vault_status =
        VaultStatus.Locked (EveError.ofErrorAndTime v.error_and_time)
          (if strContains v.error_and_time.error_description.error
              "Vault key unavailable" then
            v.mismatching_pcrs
          else
            none)) ∧
    ((v.pcr_status == PCRStatus.PcrEnabled) = true ↔
      v.pcr_status = PCRStatus.PcrEnabled) := by
  refine ⟨?_, ?_, ?_, ?_, beq_iff_eq⟩ <;> intro h <;>
    simp [MonitorModel.update_vault_status, VaultStatus.ofEve, h,
      EveError.ofErrorAndTime]

/-- C4 witness: a concrete `Error`-status vault message whose error text
contains "Vault key unavailable" and whose PCR status is enabled. -/
theorem c4_witness :
    (MonitorModel.default.update_vault_status
        { name := "vault"
          status := DataSecAtRestStatus.DataSecAtRestError
          pcr_status := PCRStatus.PcrEnabled
          conversion_complete := false
          mismatching_pcrs := some [0, 4, 7]
          error_and_time :=
            { error_description :=
                { error := "tpm: Vault key unavailable on this device"
                  error_time := 0
                  error_severity := ErrorSeverity.Error
                  error_retry_condition := ""
                  error_entities := none } } }).vault_status =
      VaultStatus.Locked
        { error := "tpm: Vault key unavailable on this device", time := 0 }
        (some [0, 4, 7]) := by
  have h := (c4_update_vault_status MonitorModel.default
    { name := "vault"
      status := DataSecAtRestStatus.DataSecAtRestError
      pcr_status := PCRStatus.PcrEnabled
      conversion_complete := false
      mismatching_pcrs := some [0, 4, 7]
      error_and_time :=
        { error_description :=
            { error := "tpm: Vault key unavailable on this device"
              error_time := 0
              error_severity := ErrorSeverity.Error
              error_retry_condition := ""
              error_entities := none } } }).2.2.2.1 rfl
  rw [h]
  norm_num [EveError.ofErrorAndTime]
  decide

/-- C5: `update_node_status` sets the onboarding status to `Onboarded id`
for `(onboarded = true, uuid = some id)`, to
`Error "Node UUID is missing"` for `(onboarded = true, uuid = none)`, and to
`Onboarding` for `onboarded = false` whatever the uuid field holds. -/
theorem c5_update_node_status (m : MonitorModel) (s : EveNodeStatus) :
    (∀ id, s.onboarded = true → s.node_uuid = some id →
      (m.update_node_status s).node_status.onboarding_status =
        OnboardingStatus.Onboarded id) ∧
    (s.onboarded = true → s.node_uuid = none →
      (m.update_node_status s).node_status.onboarding_status =
        OnboardingStatus.Error "Node UUID is missing") ∧
    (s.onboarded = false →
      (m.update_node_status s).node_status.onboarding_status =
        OnboardingStatus.Onboarding) := by
  refine ⟨?_, ?_, ?_⟩
  · intro id h1 h2
    simp [MonitorModel.update_node_status, NodeStatus.ofEve, h1, h2]
  · intro h1 h2
    simp [MonitorModel.update_node_status, NodeStatus.ofEve, h1, h2]
  · intro h1
    simp [MonitorModel.update_node_status, NodeStatus.ofEve, h1]

/-- C5 witness: the three onboarding cases at concrete messages. -/
theorem c5_witness :
    (MonitorModel.default.update_node_status
        { server := some "zedcloud", node_uuid := some "123e4567-e89b-12d3-a456-426614174000"
          onboarded := true, app_instance_summary := none }).node_status.onboarding_status =
      OnboardingStatus.Onboarded "123e4567-e89b-12d3-a456-426614174000" ∧
    (MonitorModel.default.update_node_status
        { server := none, node_uuid := none
          onboarded := true, app_instance_summary := none }).node_status.onboarding_status =
      OnboardingStatus.Error "Node UUID is missing" ∧
    (MonitorModel.default.update_node_status
        { server := none, node_uuid := some "123e4567-e89b-12d3-a456-426614174000"
          onboarded := false, app_instance_summary := none }).node_status.onboarding_status =
      OnboardingStatus.Onboarding := by
  refine ⟨?_, ?_, ?_⟩
  · exact (c5_update_node_status MonitorModel.default _).1
      "123e4567-e89b-12d3-a456-426614174000" rfl rfl
  · exact (c5_update_node_status MonitorModel.default _).2.1 rfl rfl
  · exact (c5_update_node_status MonitorModel.default _).2.2 rfl

/-- C6: `update_network_status` replaces the interface list with exactly one
entry per port of the message, each derived from that port's fields (name,
management flag, address list, gateways); a message with no port list yields
an empty interface list. -/
theorem c6_update_network_status (m : MonitorModel) (ns : DeviceNetworkStatus) :
    (ns.ports = none → (m.update_network_status ns).network = []) ∧
    (∀ ports, ns.ports = some ports →
      (m.update_network_status ns).network = ports.map NetworkInterface.ofPort) ∧
    (∀ p : NetworkPortStatus, NetworkInterface.ofPort p =
      { name := p.if_name
        is_mngmt := p.is_mgmt
        addresses := p.addr_info_list.map (fun a => a.addr)
        default_gateway := p.default_routers }) := by
  refine ⟨?_, ?_, fun p => rfl⟩
  · intro h
    simp [MonitorModel.update_network_status, MonitorModel.get_network_settings, h]
  · intro ports h
    simp [MonitorModel.update_network_status, MonitorModel.get_network_settings, h]

/-- C6 witness: one concrete port (the `eth1` port of the repository's own
test fixture) and the portless message. -/
theorem c6_witness :
    (MonitorModel.default.update_network_status
        { dpc_key := "", version := 1, testing := false, state := 3
          current_index := 0
          ports := some [{ if_name := "eth1", phy_label := "eth1"
                           logical_label := "eth1", is_mgmt := true
                           is_l3_port := true, cost := 0, domain_name := ""
                           dns_servers := some ["192.168.2.3"]
                           addr_info_list :=
                             [{ addr := "192.168.2.10", geo := none
                                last_geo_timestamp := none },
                              { addr := "fe80::6f27:5660:de21:d553", geo := none
                                last_geo_timestamp := none }]
                           up := true
                           default_routers := some ["192.168.2.2", "fe80::2"]
                           mtu := 1500 }] }).network =
      [{ name := "eth1", is_mngmt := true
         addresses := ["192.168.2.10", "fe80::6f27:5660:de21:d553"]
         default_gateway := some ["192.168.2.2", "fe80::2"] }] ∧
    (MonitorModel.default.update_network_status
        { dpc_key := "", version := 1, testing := false, state := 3
          current_index := 0, ports := none }).network = [] := by
  constructor
  · rw [(c6_update_network_status MonitorModel.default _).2.1 _ rfl]
    rfl
  · exact (c6_update_network_status MonitorModel.default _).1 rfl

/-- C7: applying the same app-status update twice yields the same app map as
applying it once; afterwards the map holds exactly one entry for the
message's id (given the `HashMap` invariant that keys are duplicate-free),
that entry is the instance derived from the message, and its lifecycle state
is `Error(code, reason)` exactly when the message's error field is non-empty
and `Normal(code)` otherwise. -/
theorem c7_update_app_status (m : MonitorModel) (msg : AppInstanceStatus) :
    ((m.update_app_status msg).update_app_status msg).apps =
      (m.update_app_status msg).apps ∧
    (m.update_app_status msg).apps.lookup msg.uuid_and_version.uuid =
      some (AppInstance.ofStatus msg) ∧
    ((m.apps.map Prod.fst).Nodup →
      (m.update_app_status msg).apps.countP
        (fun e => decide (e.1 = msg.uuid_and_version.uuid)) = 1) ∧
    (msg.error_and_time_with_source.error_description.error.isEmpty = false →
      (AppInstance.ofStatus msg).state =
        AppInstanceState.Error msg.state
          msg.error_and_time_with_source.error_description.error) ∧
    (msg.error_and_time_with_source.error_description.error.isEmpty = true →
      (AppInstance.ofStatus msg).state = AppInstanceState.Normal msg.state) := by
  refine ⟨?_, ?_, ?_, ?_, ?_⟩
  · simp [MonitorModel.update_app_status, upsertApp_idem]
  · simp [MonitorModel.update_app_status, upsertApp_lookup]
  · intro h
    simp [MonitorModel.update_app_status, upsertApp_countP_eq_one _ _ _ h]
  · intro h
    simp [AppInstance.ofStatus, h]
  · intro h
    simp [AppInstance.ofStatus, h]

/-- C7 witness: a concrete error-free app-status message upserted into the
empty default model. -/
theorem c7_witness :
    (MonitorModel.default.update_app_status
        { uuid_and_version := { uuid := "0c6a8a02-8d4e-4b7e-b743-18dbf1156b31"
                                version := "1" }
          display_name := "nginx", activated := true, state := SwState.Running
          missing_network := false, missing_memory := false
          error_and_time_with_source :=
            { error_source_type := ""
              error_description := { error := "", error_time := 0
                                     error_severity := ErrorSeverity.Unspecified
                                     error_retry_condition := ""
                                     error_entities := none } } }).apps.countP
      (fun e => decide (e.1 = "0c6a8a02-8d4e-4b7e-b743-18dbf1156b31")) = 1 ∧
    (AppInstance.ofStatus
        { uuid_and_version := { uuid := "0c6a8a02-8d4e-4b7e-b743-18dbf1156b31"
                                version := "1" }
          display_name := "nginx", activated := true, state := SwState.Running
          missing_network := false, missing_memory := false
          error_and_time_with_source :=
            { error_source_type := ""
              error_description := { error := "", error_time := 0
                                     error_severity := ErrorSeverity.Unspecified
                                     error_retry_condition := ""
                                     error_entities := none } } }).state =
      AppInstanceState.Normal SwState.Running := by
  constructor
  · exact (c7_update_app_status MonitorModel.default _).2.2.1 (by simp [MonitorModel.default])
  · exact (c7_update_app_status MonitorModel.default _).2.2.2.2 rfl

/-- C8: a network-status update leaves the app map, the vault status and the
node status of the model unchanged (topic independence). -/
theorem c8_network_frame (m : MonitorModel) (ns : DeviceNetworkStatus) :
    (m.update_network_status ns).apps = m.apps ∧
    (m.update_network_status ns).vault_status = m.vault_status ∧
    (m.update_network_status ns).node_status = m.node_status :=
  ⟨rfl, rfl, rfl⟩

/-- C1: dialog key handling. Escape yields `DismissDialog` for every dialog
and every inner-window behaviour; otherwise the key goes to the inner
window: an inner `ButtonClicked("Cancel")` is translated to `DismissDialog`,
any other inner `ButtonClicked(name)` (including "Ok") yields no action, and
every other inner action is forwarded unchanged. -/
theorem c1_dialog_handle_key_event (d : Dialog) (k : KeyEvent) :
    (k.code = KeyCode.Esc →
      d.handle_key_event k = some (Action'.new d.name UiActions.DismissDialog)) ∧
    (k.code ≠ KeyCode.Esc →
      (d.innerHandle k = none → d.handle_key_event k = none) ∧
      (∀ a, d.innerHandle k = some a →
        a.action = UiActions.ButtonClicked "Cancel" →
        d.handle_key_event k = some (Action'.new d.name UiActions.DismissDialog)) ∧
      (∀ a name, d.innerHandle k = some a →
        a.action = UiActions.ButtonClicked name → name ≠ "Cancel" →
        d.handle_key_event k = none) ∧
      (∀ a, d.innerHandle k = some a →
        (∀ name, a.action ≠ UiActions.ButtonClicked name) →
        d.handle_key_event k = some a)) := by
  constructor
  · intro h
    simp [Dialog.handle_key_event, h]
  · intro h
    refine ⟨?_, ?_, ?_, ?_⟩
    · intro hin
      simp [Dialog.handle_key_event, h, hin]
    · intro a hin hact
      simp [Dialog.handle_key_event, h, hin, hact]
    · intro a name hin hact hname
      simp [Dialog.handle_key_event, h, hin, hact, hname]
    · intro a hin hact
      rcases a with ⟨src, act⟩
      cases act with
      | ButtonClicked n => exact absurd rfl (hact n)
      | DismissDialog => simp [Dialog.handle_key_event, h, hin]
      | Redraw => simp [Dialog.handle_key_event, h, hin]
      | Quit => simp [Dialog.handle_key_event, h, hin]

/-- C1 witness: Escape on a concrete dialog, and a concrete inner
`ButtonClicked("Cancel")` translated to `DismissDialog`. -/
theorem c1_witness :
    Dialog.handle_key_event
      { name := "confirm", size := (50, 20), buttons := ["Ok", "Cancel"]
        innerHandle := fun _ => none }
      { code := KeyCode.Esc
        modifiers := { ctrl := false, shift := false, alt := false } } =
      some (Action'.new "confirm" UiActions.DismissDialog) ∧
    Dialog.handle_key_event
      { name := "confirm", size := (50, 20), buttons := ["Ok", "Cancel"]
        innerHandle := fun _ =>
          some (Action'.new "Cancel" (UiActions.ButtonClicked "Cancel")) }
      { code := KeyCode.Char 'x'
        modifiers := { ctrl := false, shift := false, alt := false } } =
      some (Action'.new "confirm" UiActions.DismissDialog) := by
  constructor
  · exact (c1_dialog_handle_key_event _ _).1 rfl
  · exact ((c1_dialog_handle_key_event _ _).2 (by decide)).2.1 _ rfl rfl

/-- C2 exactly as claimed: every action produced by delivering a tick to the
layers of the active tab's stack or to the status bar ends up on the
ActionBus (`action_tx`). -/
def C2Claim : Prop :=
  ∀ (dbg : Bool) (u : Ui) (a : Action'),
    (a ∈ u.activeStack.filterMap (fun l => l.tickAction) ∨
      u.status_bar.tickAction = some a) →
    a ∈ (Ui.handle_event dbg u Event.Tick).1.sent

/-- A Ui whose status bar produces a tick action: all five stacks empty,
nothing sent yet. -/
def c2CexUi : Ui :=
  { views := [[], [], [], [], []]
    selected_tab := UiTabs.Summary
    status_bar := { ticks := 0
                    tickAction := some (Action'.new "status" UiActions.Redraw)
                    onKey := fun _ => none }
    sent := []
    crashed := false }

/-- C2 counterexample: the status bar's tick action is dropped on the floor —
`Ui::handle_event` calls `self.status_bar.handle_event(Event::Tick)` and
discards its result instead of sending it on `action_tx`. -/
theorem c2_counterexample : ¬ C2Claim := by
  intro h
  have hmem := h true c2CexUi (Action'.new "status" UiActions.Redraw) (Or.inr rfl)
  have hsent : (Ui.handle_event true c2CexUi Event.Tick).1.sent = [] := rfl
  rw [hsent] at hmem
  exact List.not_mem_nil _ hmem

/-- C2 (amended): a tick is delivered to every layer of the active tab's
stack and, separately, to the status bar; the actions produced by the layer
deliveries — and only those — are pushed onto the ActionBus in stack order,
while the status bar's action is discarded. -/
theorem c2_tick_routing (dbg : Bool) (u : Ui) :
    (Ui.handle_event dbg u Event.Tick).2 = none ∧
    (Ui.handle_event dbg u Event.Tick).1.sent =
      u.sent ++ u.activeStack.filterMap (fun l => l.tickAction) ∧
    (Ui.handle_event dbg u Event.Tick).1.views =
      u.views.set u.selected_tab.toIdx
        (u.activeStack.map (fun l => { l with ticks := l.ticks + 1 })) ∧
    (Ui.handle_event dbg u Event.Tick).1.status_bar =
      { u.status_bar with ticks := u.status_bar.ticks + 1 } ∧
    (Ui.handle_event dbg u Event.Tick).1.selected_tab = u.selected_tab :=
  ⟨rfl, rfl, rfl, rfl, rfl⟩

/-- Popping a layer does not change which tab is selected, so the tab-switch
step lands on the same tab whether or not a pop happened first. -/
theorem pop_tabSwitch_tab (u : Ui) (k : KeyEvent) :
    (u.pop_layer.tabSwitch k).selected_tab = (u.tabSwitch k).selected_tab := by
  unfold Ui.tabSwitch
  by_cases h1 : (k.modifiers = KeyModifiers.CONTROL ∧ k.code = KeyCode.Left) <;>
    by_cases h2 : (k.modifiers = KeyModifiers.CONTROL ∧ k.code = KeyCode.Right) <;>
      simp [h1, h2, Ui.pop_layer]

/-- C3 exactly as claimed: for a key that is not a global shortcut, once the
key has been forwarded to the active tab's top layer, the tab-switch
shortcuts are checked regardless of what the layer returned, and switching
saturates at the first and last tab. -/
def C3Claim : Prop :=
  (∀ (dbg : Bool) (u : Ui) (k : KeyEvent),
    isCtrlChar k 'e' = false → isCtrlChar k 'r' = false →
    isCtrlChar k 'p' = false → (isCtrlChar k 'a' && dbg) = false →
    u.activeStack.getLast? ≠ none →
    (Ui.handle_event dbg u (Event.Key k)).1.selected_tab =
      (u.tabSwitch k).selected_tab) ∧
  UiTabs.Summary.previous = UiTabs.Summary ∧ UiTabs.Dmesg.next = UiTabs.Dmesg

/-- Ctrl+Left, the previous-tab shortcut. -/
def ctrlLeftKey : KeyEvent :=
  { code := KeyCode.Left, modifiers := KeyModifiers.CONTROL }

/-- A layer that answers every key with a forwarded (`Quit`) action. -/
def c3CexLayer : Layer :=
  { ticks := 0, tickAction := none
    onKey := fun _ => some (Action'.new "page" UiActions.Quit) }

/-- A Ui on the Home tab whose top layer forwards an action on every key. -/
def c3CexUi : Ui :=
  { views := [[], [c3CexLayer], [], [], []]
    selected_tab := UiTabs.Home
    status_bar := { ticks := 0, tickAction := none, onKey := fun _ => none }
    sent := []
    crashed := false }

/-- C3 counterexample: when the top layer returns an action that the Ui
forwards to the caller, `Ui::handle_event` returns early and the Ctrl+Left
tab-switch check never runs, so the selected tab stays `Home` instead of
moving to `Summary`. -/
theorem c3_counterexample : ¬ C3Claim := by
  intro h
  have h1 := h.1 false c3CexUi ctrlLeftKey rfl rfl rfl rfl (by
    rw [show c3CexUi.activeStack.getLast? = some c3CexLayer from rfl]
    exact Option.some_ne_none _)
  rw [show (Ui.handle_event false c3CexUi (Event.Key ctrlLeftKey)).1.selected_tab =
      UiTabs.Home from rfl] at h1
  rw [show (c3CexUi.tabSwitch ctrlLeftKey).selected_tab = UiTabs.Summary from rfl] at h1
  exact absurd h1 (by decide)

/-- C3 (amended): for a non-shortcut key forwarded to the active tab's top
layer, the tab-switch check runs when the layer returns no action or an
action the Ui handles internally (`DismissDialog` or any `ButtonClicked`);
when the layer returns any other action, `handle_event` returns it to the
caller immediately, leaving the Ui (and the selected tab) unchanged.
Switching saturates: `previous()` on the first tab and `next()` on the last
tab return that same tab. -/
theorem c3_key_routing (dbg : Bool) (u : Ui) (k : KeyEvent) (top : Layer)
    (he : isCtrlChar k 'e' = false) (hr : isCtrlChar k 'r' = false)
    (hp : isCtrlChar k 'p' = false) (ha : (isCtrlChar k 'a' && dbg) = false)
    (htop : u.activeStack.getLast? = some top) :
    (top.onKey k = none →
      (Ui.handle_event dbg u (Event.Key k)).1.selected_tab =
        (u.tabSwitch k).selected_tab) ∧
    (∀ a, top.onKey k = some a →
      (a.action = UiActions.DismissDialog ∨
        ∃ n, a.action = UiActions.ButtonClicked n) →
      (Ui.handle_event dbg u (Event.Key k)).1.selected_tab =
        (u.tabSwitch k).selected_tab) ∧
    (∀ a, top.onKey k = some a →
      a.action ≠ UiActions.DismissDialog →
      (∀ n, a.action ≠ UiActions.ButtonClicked n) →
      Ui.handle_event dbg u (Event.Key k) = (u, some a)) ∧
    UiTabs.Summary.previous = UiTabs.Summary ∧
    UiTabs.Dmesg.next = UiTabs.Dmesg := by
  have hstep : Ui.handle_event dbg u (Event.Key k) =
      (match top.onKey k with
       | some action =>
           match action.action with
           | UiActions.DismissDialog => (u.pop_layer.tabSwitch k, none)
           | UiActions.ButtonClicked name =>
               if name = "Ok" then (u.pop_layer.tabSwitch k, none)
               else if name = "Cancel" then (u.pop_layer.tabSwitch k, none)
               else (u.tabSwitch k, none)
           | _ => (u, some action)
       | none => (u.tabSwitch k, none)) := by
    simp only [Ui.handle_event, he, hr, hp, ha, htop]
    simp
  refine ⟨?_, ?_, ?_, rfl, rfl⟩
  · intro hnone
    rw [hstep, hnone]
  · intro a ha2 hcase
    obtain ⟨src, act⟩ := a
    rcases hcase with hd | ⟨n, hb⟩
    · have hd' : act = UiActions.DismissDialog := hd
      subst hd'
      rw [hstep, ha2]
      exact pop_tabSwitch_tab u k
    · have hb' : act = UiActions.ButtonClicked n := hb
      subst hb'
      rw [hstep, ha2]
      by_cases hOk : n = "Ok"
      · simp [hOk, pop_tabSwitch_tab]
      · by_cases hCancel : n = "Cancel"
        · simp [hOk, hCancel, pop_tabSwitch_tab]
        · simp [hOk, hCancel]
  · intro a ha2 hnd hnb
    rw [hstep, ha2]
    rcases a with ⟨src, act⟩
    cases act with
    | DismissDialog => exact absurd rfl hnd
    | ButtonClicked n => exact absurd rfl (hnb n)
    | Redraw => rfl
    | Quit => rfl

/-- A layer that swallows every key without producing an action. -/
def c3WitLayer : Layer :=
  { ticks := 0, tickAction := none, onKey := fun _ => none }

/-- A Ui on the Home tab whose top layer consumes keys silently. -/
def c3WitUi : Ui :=
  { views := [[], [c3WitLayer], [], [], []]
    selected_tab := UiTabs.Home
    status_bar := { ticks := 0, tickAction := none, onKey := fun _ => none }
    sent := []
    crashed := false }

/-- C3 witness: Ctrl+Left on the Home tab with a key-swallowing top layer
does switch to the Summary tab. -/
theorem c3_witness :
    (Ui.handle_event false c3WitUi (Event.Key ctrlLeftKey)).1.selected_tab =
      UiTabs.Summary := by
  have h := (c3_key_routing false c3WitUi ctrlLeftKey c3WitLayer
    rfl rfl rfl rfl rfl).1 rfl
  rw [h]
  rfl

/-- C9: MAC deserialization succeeds with a MAC value exactly when the input
string is valid base64 decoding to exactly 6 or 8 raw bytes; an absent input
yields `Ok(None)`; invalid base64 and any other decoded length are rejected
with a decode error. -/
theorem c9_deserialize_mac (s : String) :
    deserialize_mac none = Except.ok none ∧
    ((∃ mac, deserialize_mac (some s) = Except.ok (some mac)) ↔
      (∃ bytes, base64Decode s = some bytes ∧
        (bytes.length = 6 ∨ bytes.length = 8))) ∧
    (base64Decode s = none →
      deserialize_mac (some s) = Except.error "base64 decode error") ∧
    (∀ bytes, base64Decode s = some bytes →
      bytes.length ≠ 6 → bytes.length ≠ 8 →
      deserialize_mac (some s) = Except.error "invalid MAC address length") := by
  refine ⟨rfl, ?_, ?_, ?_⟩
  · constructor
    · rintro ⟨mac, hmac⟩
      cases hb : base64Decode s with
      | none => simp [deserialize_mac, hb] at hmac
      | some bytes =>
          by_cases h6 : bytes.length = 6
          · exact ⟨bytes, rfl, Or.inl h6⟩
          · by_cases h8 : bytes.length = 8
            · exact ⟨bytes, rfl, Or.inr h8⟩
            · simp [deserialize_mac, hb, h6, h8] at hmac
    · rintro ⟨bytes, hb, hlen⟩
      by_cases h6 : bytes.length = 6
      · exact ⟨MacAddr.V6 bytes, by simp [deserialize_mac, hb, h6]⟩
      · rcases hlen with h6' | h8
        · exact absurd h6' h6
        · exact ⟨MacAddr.V8 bytes, by simp [deserialize_mac, hb, h6, h8]⟩
  · intro h
    simp [deserialize_mac, h]
  · intro bytes hb h6 h8
    simp [deserialize_mac, hb, h6, h8]

/-- C9 witness: the repository's own fixture MAC `"UlQAEjRX"` (6 bytes
`52:54:00:12:34:57`) decodes successfully; a non-base64 string is rejected;
a 4-byte base64 string (`"AAECAw=="`) is rejected with the length error. -/
theorem c9_witness :
    deserialize_mac (some "UlQAEjRX") =
      Except.ok (some (MacAddr.V6 [82, 84, 0, 18, 52, 87])) ∧
    deserialize_mac (some "notbase64!") = Except.error "base64 decode error" ∧
    deserialize_mac (some "AAECAw==") =
      Except.error "invalid MAC address length" := by
  refine ⟨?_, ?_, ?_⟩
  · have h := (c9_deserialize_mac "UlQAEjRX").2.1.mpr
      ⟨[82, 84, 0, 18, 52, 87], by decide, Or.inl (by decide)⟩
    decide
  · exact (c9_deserialize_mac "notbase64!").2.2.1 (by decide)
  · exact (c9_deserialize_mac "AAECAw==").2.2.2 [0, 1, 2, 3] (by decide)
      (by decide) (by decide)

/-- C10: a node-status message whose `node_uuid` field is the all-zero UUID
string deserializes with `node_uuid = None`; with `onboarded = true` it
therefore maps to `OnboardingStatus.Error "Node UUID is missing"` and never
to `Onboarded` of any id. -/
theorem c10_zero_uuid (raw : RawEveNodeStatus)
    (h : raw.node_uuid = zeroUuidStr) :
    ∃ ns, deserializeEveNodeStatus raw = Except.ok ns ∧ ns.node_uuid = none ∧
      (raw.onboarded = true →
        (NodeStatus.ofEve ns).onboarding_status =
          OnboardingStatus.Error "Node UUID is missing" ∧
        ∀ id, (NodeStatus.ofEve ns).onboarding_status ≠
          OnboardingStatus.Onboarded id) := by
  refine ⟨{ server := raw.server, node_uuid := none, onboarded := raw.onboarded
            app_instance_summary := raw.app_instance_summary }, ?_, rfl, ?_⟩
  · simp [deserializeEveNodeStatus, zero_uuid_as_none, h]
  · intro hb
    constructor
    · simp [NodeStatus.ofEve, hb]
    · intro id hcon
      simp [NodeStatus.ofEve, hb] at hcon

/-- C10 witness: a concrete onboarded message carrying the all-zero UUID. -/
theorem c10_witness :
    ∃ ns, deserializeEveNodeStatus
        { server := some "zedcloud.alpha.zededa.net"
          node_uuid := "00000000-0000-0000-0000-000000000000"
          onboarded := true, app_instance_summary := none } = Except.ok ns ∧
      ns.node_uuid = none ∧
      (NodeStatus.ofEve ns).onboarding_status =
        OnboardingStatus.Error "Node UUID is missing" := by
  obtain ⟨ns, h1, h2, h3⟩ := c10_zero_uuid
    { server := some "zedcloud.alpha.zededa.net"
      node_uuid := "00000000-0000-0000-0000-000000000000"
      onboarded := true, app_instance_summary := none } rfl
  exact ⟨ns, h1, h2, (h3 rfl).1⟩
